import Mathlib

/-!
Verification of the session lifecycle and connection-multiplexing engine of the
Juice-Labs agent (`cmd/agent/app/session.go`) and of two HTTP endpoint handlers
(`cmd/agent/app/endpoints.go`).

The development has two layers:

* a pure functional embedding of `Session.Connect` / `Session.addConnection`
  (the bodies run under the `closed`-flag mutex, so one call is a single
  critical section whose external effects — map updates, watcher spawns,
  channel sends, listener events — are collected in a result record);

* a labeled small-step transition system embedding the concurrent behaviour of
  one session after `Run`: the closing watcher, the idle ticker (spawned only
  for non-persistent sessions), the per-connection watcher tasks, and the
  create path of `Connect`, with the unbuffered `connectionsChanged` channel
  modelled as a rendezvous (a send only completes together with a receive).

External collaborators (GPU reservation, Connection transport, event listener,
task manager) appear through their observable contracts only, as the spec
prescribes.
-/


/-- Connection metadata carried by `restapi.ConnectionData` (id, pid, process
name are the fields `session.go` reads). -/
structure ConnectionData where
  id : String
  pid : String
  processName : String
deriving DecidableEq, Repr

/-- The per-connection handle created by `newConnection`; only its
`ConnectionData` is observable to the session layer. -/
structure Connection where
  connectionData : ConnectionData
deriving DecidableEq, Repr

/-- The thread-safe connection map `utilities.ConcurrentMap[string, *Connection]`,
keyed by connection id. -/
abbrev ConnectionMap := List (String × Connection)

/-- Events delivered to the session's `EventListener`. -/
inductive PEvent where
  | connectionCreated (sessionId : String) (cd : ConnectionData)
  | connectionClosed (sessionId : String) (cd : ConnectionData) (exitStatus : Int)
  | sessionClosed (sessionId : String)
deriving DecidableEq, Repr

/-- Errors surfaced by `Session.Connect`: the sentinel `ErrClosed`
(`session is closed`), the wrapper produced at session.go:160 around a failed
`connection.Start`, and a failure of `connection.Connect(c)` (stream attach). -/
inductive ConnectError where
  | errClosed
  | startFailed (wrapped : String)
  | attachFailed (e : String)
deriving DecidableEq, Repr

/-- The observable effects of one `Session.Connect` critical section:
the connection map afterwards, how many watcher tasks were spawned under the
session task manager, how many sends on `connectionsChanged` were issued,
which listener events were emitted, and the returned error (`none` = nil). -/
structure ConnectOutcome where
  connections : ConnectionMap
  watchersSpawned : Nat
  signalsSent : Nat
  events : List PEvent
  result : Option ConnectError
deriving DecidableEq, Repr

/-- Embedding of `Session.addConnection` (session.go:171-203). The oracle
`startErr` is the result of `connection.Start(session.taskManager, exitCodeCh)`:
on `some e` the function returns the error before any registration; on `none`
it spawns one watcher task, inserts the connection, sends one
`connectionsChanged` signal and emits `ConnectionCreated`. -/
def addConnection (sessionId : String) (m : ConnectionMap) (cd : ConnectionData)
    (startErr : Option String) :
    Except String (Connection × ConnectionMap × Nat × Nat × List PEvent) :=
  match startErr with
  | some e => .error e
  | none =>
    let connection : Connection := { connectionData := cd }
    .ok (connection, (cd.id, connection) :: m, 1, 1,
      [.connectionCreated sessionId cd])

/-- Embedding of `Session.Connect` (session.go:150-169). The whole body runs
inside `utilities.WithReturn(session.closed, ...)`, so it is one critical
section over the guarded `closed` flag. `attachErr` is the oracle result of
`connection.Connect(c)`. -/
def sessionConnect (sessionId : String) (closed : Bool) (m : ConnectionMap)
    (cd : ConnectionData) (startErr : Option String) (attachErr : Option String) :
    ConnectOutcome :=
  if !closed then
    match m.lookup cd.id with
    | some _ =>
      { connections := m, watchersSpawned := 0, signalsSent := 0, events := [],
        result := attachErr.map .attachFailed }
    | none =>
      match addConnection sessionId m cd startErr with
      | .error e =>
        { connections := m, watchersSpawned := 0, signalsSent := 0, events := [],
          result := some (.startFailed e) }
      | .ok (_, m', w, sig, evs) =>
        { connections := m', watchersSpawned := w, signalsSent := sig,
          events := evs, result := attachErr.map .attachFailed }
  else
    { connections := m, watchersSpawned := 0, signalsSent := 0, events := [],
      result := some .errClosed }

/-- Admission check of `requestSessionEp` (endpoints.go:66):
`if agent.sessions.Len()+1 >= agent.maxSessions { err = errors.New(...) }`.
Returns `true` when the request is admitted. -/
def requestSessionAdmits (sessionsLen maxSessions : Int) : Bool :=
  if sessionsLen + 1 ≥ maxSessions then false else true

/-- Observable actions of the `connectSessionEp` handler (endpoints.go:151-195). -/
inductive EpAction where
  | respondEmpty (status : Nat)
  | respondWithString (status : Nat)
  | hijackConn
  | sessionConnectCall
  | nilPointerPanic
  | connClose
deriving DecidableEq, Repr

/-- Embedding of the `connectSessionEp` handler body (endpoints.go:153-192).
`sessionLookup` is the result of `agent.getSession(id)` — a Go
`(*Session, error)` pair, i.e. an error or an optional (possibly nil) session
pointer. `hijackErr` merges the `Cast[http.Hijacker]` and `Hijack()` failure
paths; `connectErr` is the result of `session.Connect(conn)`. When the lookup
returns a nil session with a nil error the handler responds 400 but `err`
stays nil, so it falls through to the hijack and then calls `Connect` on the
nil pointer, which dereferences nil. -/
def connectSessionEp (sessionLookup : Except String (Option Unit))
    (hijackErr : Option String) (connectErr : Option String) : List EpAction :=
  match sessionLookup with
  | .error _ => [.respondWithString 500]
  | .ok session =>
    let pre : List EpAction :=
      if session.isNone then [.respondEmpty 400] else []
    match hijackErr with
    | some _ => pre ++ [.respondWithString 500]
    | none =>
      match session with
      | none => pre ++ [.hijackConn, .nilPointerPanic]
      | some _ =>
        pre ++ [.hijackConn, .sessionConnectCall] ++
          (match connectErr with
           | some _ => [.connClose]
           | none => [])


/-- Program counter of the closing watcher spawned at session.go:88-110. -/
inductive ClosePC where
  | selecting     -- blocked in the select, session.go:89-96
  | cancelDone    -- a branch taken; about to run `session.closed.Set(true)` (line 98)
  | waiting       -- inside `session.taskManager.Wait()` (line 100)
  | closingChans  -- Wait returned; about to close both channels (lines 102-103)
  | releasing     -- about to call `session.gpus.Release()` (line 105)
  | emitting      -- about to emit `SessionClosed` (line 107)
  | finished
deriving DecidableEq, Repr

/-- Teardown progress as a number, for stating the strict ordering of the
teardown steps. -/
def closePhase : ClosePC → Nat
  | .selecting => 0
  | .cancelDone => 1
  | .waiting => 2
  | .closingChans => 3
  | .releasing => 4
  | .emitting => 5
  | .finished => 6

/-- Program counter of one connection-watcher task (session.go:182-195). -/
inductive WatcherPC where
  | awaitingExit                    -- line 183: exitCode, ok := <-exitCodeCh
  | removing (exitCode : Int)       -- line 189: session.connections.Delete
  | signaling (exitCode : Int)      -- line 190: session.connectionsChanged <- struct{}{}
  | emittingClosed (exitCode : Int) -- line 192: eventListener.ConnectionClosed
  | returned
deriving DecidableEq, Repr

/-- One connection-watcher task, tagged with its connection id. -/
structure WatcherTask where
  cid : String
  pc : WatcherPC
deriving DecidableEq, Repr

/-- Program counter of a `Connect` call on its create path, from entering the
critical section until it leaves it. -/
inductive ConnectPC where
  | signaling   -- line 198 send, inside the critical section
  | finishing   -- lines 200 and 164: emit ConnectionCreated, attach, unlock
  | returned
deriving DecidableEq, Repr

/-- One in-flight `Connect` call on the create path. -/
structure ConnectTask where
  cid : String
  pc : ConnectPC
deriving DecidableEq, Repr

/-- The idle-ticker task: absent (persistent session, session.go:112), in its
loop, or exited after observing the closing signal. -/
inductive TickerPC where
  | absent
  | looping
  | exited
deriving DecidableEq, Repr

/-- The ticker's timer: armed with a period in seconds, or stopped. -/
inductive TimerState where
  | armed (seconds : Nat)
  | stopped
deriving DecidableEq, Repr

/-- Events emitted to the event listener, for a single session. -/
inductive TraceEvent where
  | connectionCreated (cid : String)
  | connectionClosed (cid : String) (exitStatus : Int)
  | sessionClosed
deriving DecidableEq, Repr

/-- Global state of one running session and its tasks. `lockHeld` is the mutex
of the guarded `closed` variable, held across a `Connect` create-path critical
section (which contains the blocking send of line 198); the short critical
sections (`Cancel`, `Set`, the closed/existing/start-failure paths of
`Connect`) are modelled as single atomic steps requiring the mutex to be
free. `conns` is the key set of the connection map. `chansClosed` records
`close(connectionsChanged)`/`close(sessionClosing)` (lines 102-103), which the
watcher performs together. -/
structure SysState where
  persistent : Bool
  closed : Bool
  lockHeld : Bool
  tmCancelled : Bool
  parentCancelled : Bool
  conns : List String
  timer : TimerState
  tickerPC : TickerPC
  closePC : ClosePC
  chansClosed : Bool
  released : Nat
  events : List TraceEvent
  connects : List ConnectTask
  watchers : List WatcherTask
  panicked : Bool
deriving DecidableEq, Repr

/-- State right after `newSession` and `Run`: flag open, empty map, ticker
spawned only when not persistent (session.go:112), fresh 30-second timer
(line 114). -/
def initState (persistent : Bool) : SysState where
  persistent := persistent
  closed := false
  lockHeld := false
  tmCancelled := false
  parentCancelled := false
  conns := []
  timer := .armed 30
  tickerPC := if persistent then .absent else .looping
  closePC := .selecting
  chansClosed := false
  released := 0
  events := []
  connects := []
  watchers := []
  panicked := false

/-- Labels naming each atomic step of the system. -/
inductive Label where
  | parentCancel
  | explicitCancel
  | tickFire
  | selectParent
  | selectTm
  | setClosedFlag
  | waitReturn
  | closeChans
  | releaseGpus
  | emitSessionClosed
  | connExit (i : Nat) (exitCode : Int)
  | connRemove (i : Nat)
  | connSignal (i : Nat)
  | connSignalOnClosed (i : Nat)
  | emitConnClosed (i : Nat)
  | connectRejectClosed (cid : String)
  | connectExisting (cid : String)
  | connectStartErr (cid : String)
  | connectStartOk (cid : String)
  | connectSignal (j : Nat)
  | connectSignalOnClosed (j : Nat)
  | connectFinish (j : Nat)
  | tickerRecvClosed
  | tickerExit
deriving DecidableEq, Repr

/-- Small-step semantics of one session. The unbuffered `connectionsChanged`
channel (`make(chan struct{})`, session.go:51) is a rendezvous: a send
completes only in one step with a receive by the ticker; a send on the closed
channel panics. -/
inductive Step : SysState → Label → SysState → Prop where
  /-- The parent scope `group.Ctx()` is cancelled (external trigger). -/
  | parentCancel (s : SysState) :
      Step s .parentCancel { s with parentCancelled := true }
  /-- An external caller runs `Session.Cancel` (session.go:142-148): under the
  `closed` mutex, if the flag is not set, cancel the task manager. -/
  | explicitCancel (s : SysState) (hl : s.lockHeld = false) :
      Step s .explicitCancel { s with tmCancelled := s.tmCancelled || !s.closed }
  /-- Ticker tick (session.go:123-124): a 30-second period elapses and the
  ticker task calls `session.Cancel()`; the periodic ticker stays armed. -/
  | tickFire (s : SysState) (n : Nat) (ht : s.tickerPC = .looping)
      (ha : s.timer = .armed n) (hl : s.lockHeld = false) :
      Step s .tickFire { s with tmCancelled := s.tmCancelled || !s.closed }
  /-- Closing watcher takes the parent branch of the select (session.go:90-92)
  and runs `session.Cancel()`. -/
  | selectParent (s : SysState) (hpc : s.closePC = .selecting)
      (hp : s.parentCancelled = true) (hl : s.lockHeld = false) :
      Step s .selectParent
        { s with tmCancelled := s.tmCancelled || !s.closed, closePC := .cancelDone }
  /-- Closing watcher takes the task-manager branch (session.go:94-95); the
  task manager context derives from the parent context
  (`task.NewTaskManager(ctx)`, session.go:53), so it is done once either
  cancellation happened. -/
  | selectTm (s : SysState) (hpc : s.closePC = .selecting)
      (hc : s.tmCancelled = true ∨ s.parentCancelled = true) :
      Step s .selectTm { s with closePC := .cancelDone }
  /-- `session.closed.Set(true)` (session.go:98), under the `closed` mutex. -/
  | setClosedFlag (s : SysState) (hpc : s.closePC = .cancelDone)
      (hl : s.lockHeld = false) :
      Step s .setClosedFlag { s with closed := true, closePC := .waiting }
  /-- `session.taskManager.Wait()` returns (session.go:100): every task spawned
  under the session task manager has finished. -/
  | waitReturn (s : SysState) (hpc : s.closePC = .waiting)
      (hw : ∀ w ∈ s.watchers, w.pc = .returned) :
      Step s .waitReturn { s with closePC := .closingChans }
  /-- `close(session.connectionsChanged)`; `close(session.sessionClosing)`
  (session.go:102-103). -/
  | closeChans (s : SysState) (hpc : s.closePC = .closingChans) :
      Step s .closeChans { s with chansClosed := true, closePC := .releasing }
  /-- `session.gpus.Release()` (session.go:105). -/
  | releaseGpus (s : SysState) (hpc : s.closePC = .releasing) :
      Step s .releaseGpus { s with released := s.released + 1, closePC := .emitting }
  /-- `session.eventListener.SessionClosed(session.Id)` (session.go:107). -/
  | emitSessionClosed (s : SysState) (hpc : s.closePC = .emitting) :
      Step s .emitSessionClosed
        { s with events := s.events ++ [.sessionClosed], closePC := .finished }
  /-- The connection's process finishes with `exitCode` and the watcher task
  receives it from `exitCodeCh` (session.go:183). -/
  | connExit (s : SysState) (i : Nat) (exitCode : Int) (cid : String)
      (h : s.watchers.get? i = some ⟨cid, .awaitingExit⟩) :
      Step s (.connExit i exitCode)
        { s with watchers := s.watchers.set i ⟨cid, .removing exitCode⟩ }
  /-- `session.connections.Delete(connection.Id)` (session.go:189). -/
  | connRemove (s : SysState) (i : Nat) (exitCode : Int) (cid : String)
      (h : s.watchers.get? i = some ⟨cid, .removing exitCode⟩) :
      Step s (.connRemove i)
        { s with
          watchers := s.watchers.set i ⟨cid, .signaling exitCode⟩
          conns := s.conns.erase cid }
  /-- The watcher's send on `connectionsChanged` (session.go:190) completes in
  a rendezvous with the ticker's receive (session.go:126-131); the ticker
  re-arms the timer when the map is empty and stops it otherwise. -/
  | connSignal (s : SysState) (i : Nat) (exitCode : Int) (cid : String)
      (h : s.watchers.get? i = some ⟨cid, .signaling exitCode⟩)
      (ht : s.tickerPC = .looping) (hch : s.chansClosed = false) :
      Step s (.connSignal i)
        { s with
          watchers := s.watchers.set i ⟨cid, .emittingClosed exitCode⟩
          timer := if s.conns = [] then .armed 30 else .stopped }
  /-- A send on the already-closed `connectionsChanged` channel panics. -/
  | connSignalOnClosed (s : SysState) (i : Nat) (exitCode : Int) (cid : String)
      (h : s.watchers.get? i = some ⟨cid, .signaling exitCode⟩)
      (hch : s.chansClosed = true) :
      Step s (.connSignalOnClosed i) { s with panicked := true }
  /-- `session.eventListener.ConnectionClosed(...)` (session.go:192), then the
  watcher task returns. -/
  | emitConnClosed (s : SysState) (i : Nat) (exitCode : Int) (cid : String)
      (h : s.watchers.get? i = some ⟨cid, .emittingClosed exitCode⟩) :
      Step s (.emitConnClosed i)
        { s with
          watchers := s.watchers.set i ⟨cid, .returned⟩
          events := s.events ++ [.connectionClosed cid exitCode] }
  /-- `Connect` on a closed session (session.go:167): one short critical
  section that returns `ErrClosed` and changes nothing. -/
  | connectRejectClosed (s : SysState) (cid : String) (hl : s.lockHeld = false)
      (hc : s.closed = true) :
      Step s (.connectRejectClosed cid) s
  /-- `Connect` finding an existing connection (session.go:155,164): attaches
  the stream inside the critical section, no state change. -/
  | connectExisting (s : SysState) (cid : String) (hl : s.lockHeld = false)
      (hc : s.closed = false) (hm : cid ∈ s.conns) :
      Step s (.connectExisting cid) s
  /-- `Connect` whose `connection.Start` fails (session.go:177-180): the error
  is returned, nothing is registered. -/
  | connectStartErr (s : SysState) (cid : String) (hl : s.lockHeld = false)
      (hc : s.closed = false) (hm : cid ∉ s.conns) :
      Step s (.connectStartErr cid) s
  /-- `Connect` creating a new connection (session.go:158,176-177,182,197):
  enters the critical section, starts the connection, spawns exactly one
  watcher task, inserts the connection into the map, and is now blocked at the
  send of line 198, still holding the `closed` mutex. -/
  | connectStartOk (s : SysState) (cid : String) (hl : s.lockHeld = false)
      (hc : s.closed = false) (hm : cid ∉ s.conns) :
      Step s (.connectStartOk cid)
        { s with
          lockHeld := true
          conns := cid :: s.conns
          watchers := s.watchers ++ [⟨cid, .awaitingExit⟩]
          connects := s.connects ++ [⟨cid, .signaling⟩] }
  /-- The `Connect` send of line 198 completes in a rendezvous with the
  ticker's receive (session.go:126-131). -/
  | connectSignal (s : SysState) (j : Nat) (cid : String)
      (h : s.connects.get? j = some ⟨cid, .signaling⟩)
      (ht : s.tickerPC = .looping) (hch : s.chansClosed = false) :
      Step s (.connectSignal j)
        { s with
          connects := s.connects.set j ⟨cid, .finishing⟩
          timer := if s.conns = [] then .armed 30 else .stopped }
  /-- A `Connect` send on the already-closed channel panics. -/
  | connectSignalOnClosed (s : SysState) (j : Nat) (cid : String)
      (h : s.connects.get? j = some ⟨cid, .signaling⟩) (hch : s.chansClosed = true) :
      Step s (.connectSignalOnClosed j) { s with panicked := true }
  /-- Lines 200 and 164: emit `ConnectionCreated`, attach the stream, leave
  the critical section. -/
  | connectFinish (s : SysState) (j : Nat) (cid : String)
      (h : s.connects.get? j = some ⟨cid, .finishing⟩) :
      Step s (.connectFinish j)
        { s with
          connects := s.connects.set j ⟨cid, .returned⟩
          events := s.events ++ [.connectionCreated cid]
          lockHeld := false }
  /-- After `close(session.connectionsChanged)` the ticker's receive at line
  126 succeeds immediately with the zero value and re-evaluates the timer. -/
  | tickerRecvClosed (s : SysState) (ht : s.tickerPC = .looping)
      (hch : s.chansClosed = true) :
      Step s .tickerRecvClosed
        { s with timer := if s.conns = [] then .armed 30 else .stopped }
  /-- The ticker observes `close(session.sessionClosing)` (session.go:120-121)
  and exits its loop; the deferred `ticker.Stop()` (line 115) runs. -/
  | tickerExit (s : SysState) (ht : s.tickerPC = .looping)
      (hch : s.chansClosed = true) :
      Step s .tickerExit { s with tickerPC := .exited, timer := .stopped }

/-- Some step with any label. -/
def StepAny (a b : SysState) : Prop := ∃ l, Step a l b

/-- Finitely many steps. -/
def Steps : SysState → SysState → Prop := Relation.ReflTransGen StepAny

/-- States a session (persistent or not) can reach after `Run`. -/
def Reachable (persistent : Bool) (s : SysState) : Prop :=
  Steps (initState persistent) s


/-- Helper: an element of `l` is the element replaced at index `i` or survives
into `l.set i b`. -/
theorem mem_set_rev {α : Type} {l : List α} {i : Nat} {a b : α}
    (hg : l.get? i = some a) : ∀ w ∈ l, w = a ∨ w ∈ l.set i b := by
  induction l generalizing i with
  | nil => simp at hg
  | cons x xs ih =>
    intro w hw
    cases i with
    | zero =>
      simp only [List.get?] at hg
      cases hg
      rcases hw with _ | hw
      · exact Or.inl rfl
      · exact Or.inr (by simp [List.set]; right; assumption)
    | succ n =>
      simp only [List.get?] at hg
      rcases List.mem_cons.mp hw with rfl | hw2
      · exact Or.inr (by simp [List.set])
      · rcases ih hg w hw2 with h | h
        · exact Or.inl h
        · exact Or.inr (by simp [List.set]; right; exact h)

/-- Helper: how `countP` changes when index `i` is overwritten. -/
theorem countP_set_swap {α : Type} (p : α → Bool) {l : List α} {i : Nat}
    {a b : α} (hg : l.get? i = some a) :
    (l.set i b).countP p + (if p a then 1 else 0) =
      l.countP p + (if p b then 1 else 0) := by
  induction l generalizing i with
  | nil => simp at hg
  | cons x xs ih =>
    cases i with
    | zero =>
      simp only [List.get?] at hg
      cases hg
      simp only [List.set, List.countP_cons]
      omega
    | succ n =>
      simp only [List.get?] at hg
      simp only [List.set, List.countP_cons]
      have := ih hg
      omega

/-- Helper: the new element is a member of the updated list. -/
theorem mem_set_self {α : Type} {l : List α} {i : Nat} {a : α} (b : α)
    (hg : l.get? i = some a) : b ∈ l.set i b := by
  have hlt : i < l.length := (List.get?_eq_some.mp hg).1
  exact List.get?_mem (List.get?_set_eq_of_lt b hlt)


/-- INVARIANT: from the `waiting` program point on, the closed flag is true —
`session.closed.Set(true)` (line 98) happens before `Wait` (line 100). -/
theorem closed_of_waiting {p : Bool} {s : SysState} (h : Reachable p s) :
    2 ≤ closePhase s.closePC → s.closed = true := by
  induction h with
  | refl => intro h2; simp [initState, closePhase] at h2
  | tail hab hbc ih =>
    obtain ⟨l, hstep⟩ := hbc
    cases hstep <;> simp_all [closePhase]

/-- INVARIANT: `gpus.Release()` has run exactly once from the `emitting`
program point on, and zero times before. -/
theorem released_eq_phase {p : Bool} {s : SysState} (h : Reachable p s) :
    s.released = if 5 ≤ closePhase s.closePC then 1 else 0 := by
  induction h with
  | refl => simp [initState, closePhase]
  | tail hab hbc ih =>
    obtain ⟨l, hstep⟩ := hbc
    cases hstep <;> simp_all [closePhase]

/-- INVARIANT: the `SessionClosed` event has been emitted exactly once when
the closing watcher has finished, and never before. -/
theorem sessionClosed_count_eq {p : Bool} {s : SysState} (h : Reachable p s) :
    s.events.count .sessionClosed = if s.closePC = .finished then 1 else 0 := by
  induction h with
  | refl => simp [initState]
  | tail hab hbc ih =>
    obtain ⟨l, hstep⟩ := hbc
    cases hstep <;> simp_all [closePhase, List.count_append]

/-- INVARIANT: the two session channels are closed exactly from the
`releasing` program point on (lines 102-103 precede line 105). -/
theorem chansClosed_eq_phase {p : Bool} {s : SysState} (h : Reachable p s) :
    s.chansClosed = decide (4 ≤ closePhase s.closePC) := by
  induction h with
  | refl => simp [initState, closePhase]
  | tail hab hbc ih =>
    obtain ⟨l, hstep⟩ := hbc
    cases hstep <;> simp_all [closePhase]



/-- INVARIANT: once `taskManager.Wait()` (line 100) has returned, every
connection-watcher task has returned — `Wait` joins everything spawned under
the session task manager. -/
theorem watchers_joined {p : Bool} {s : SysState} (h : Reachable p s) :
    3 ≤ closePhase s.closePC → ∀ w ∈ s.watchers, w.pc = .returned := by
  induction h with
  | refl => simp [initState, closePhase]
  | tail hab hbc ih =>
    obtain ⟨l, hstep⟩ := hbc
    have hclosed := closed_of_waiting hab
    cases hstep
    case connExit s i ec cid hg =>
      intro h3
      have := ih h3 _ (List.get?_mem hg)
      simp at this
    case connRemove s i ec cid hg =>
      intro h3
      have := ih h3 _ (List.get?_mem hg)
      simp at this
    case connSignal s i ec cid hg ht hch =>
      intro h3
      have := ih h3 _ (List.get?_mem hg)
      simp at this
    case emitConnClosed s i ec cid hg =>
      intro h3
      have := ih h3 _ (List.get?_mem hg)
      simp at this
    case connectStartOk s cid hl hc hm =>
      intro h3
      have h3' : 3 ≤ closePhase s.closePC := by simpa using h3
      have h2 : (2:Nat) ≤ closePhase s.closePC := by omega
      simp [hclosed h2] at hc
    case waitReturn s hpc hw => intro _; simpa using hw
    all_goals simp_all [closePhase]

/-- A `Connect` task that is still inside the critical section. -/
def connectBusy (t : ConnectTask) : Bool := decide (t.pc ≠ .returned)

/-- INVARIANT: the `closed` mutex is held exactly when exactly one `Connect`
create-path critical section is in flight (the mutex is not reentrant and the
send of line 198 happens while holding it). -/
theorem lock_count {p : Bool} {s : SysState} (h : Reachable p s) :
    s.connects.countP connectBusy = if s.lockHeld then 1 else 0 := by
  induction h with
  | refl => simp [initState]
  | tail hab hbc ih =>
    obtain ⟨l, hstep⟩ := hbc
    cases hstep
    case connectStartOk s cid hl hc hm =>
      simp_all [List.countP_append, connectBusy]
    case connectSignal s j cid hg ht hch =>
      have hs := countP_set_swap connectBusy hg (b := ⟨cid, .finishing⟩)
      simp [connectBusy] at hs
      simp_all
    case connectFinish s j cid hg =>
      have hs := countP_set_swap connectBusy hg (b := ⟨cid, .returned⟩)
      simp [connectBusy] at hs
      have hpos : 0 < s.connects.countP connectBusy :=
        List.countP_pos.mpr ⟨_, List.get?_mem hg, by simp [connectBusy]⟩
      cases hlh : s.lockHeld
      · rw [hlh] at ih
        have ih0 : s.connects.countP connectBusy = 0 := by simpa using ih
        omega
      · rw [hlh] at ih
        have ih1 : s.connects.countP connectBusy = 1 := by simpa using ih
        show (s.connects.set j ⟨cid, ConnectPC.returned⟩).countP connectBusy = 0
        omega
    all_goals simp_all

/-- INVARIANT: from the `waiting` program point on the `closed` mutex is free:
`Set(true)` (line 98) needs it, and no `Connect` can take it again because the
flag is already true. -/
theorem lock_free_late {p : Bool} {s : SysState} (h : Reachable p s) :
    2 ≤ closePhase s.closePC → s.lockHeld = false := by
  induction h with
  | refl => simp [initState, closePhase]
  | tail hab hbc ih =>
    obtain ⟨l, hstep⟩ := hbc
    have hclosed := closed_of_waiting hab
    cases hstep
    case connectStartOk s cid hl hc hm =>
      intro h2
      simp only [closePhase] at h2
      simp [hclosed h2] at hc
    all_goals simp_all [closePhase]

/-- INVARIANT: the persistence flag never changes after `newSession`. -/
theorem persistent_stable {p : Bool} {s : SysState} (h : Reachable p s) :
    s.persistent = p := by
  induction h with
  | refl => simp [initState]
  | tail hab hbc ih =>
    obtain ⟨l, hstep⟩ := hbc
    cases hstep <;> simpa using ih

/-- INVARIANT: a persistent session never has a ticker task — the only
receiver of `connectionsChanged` is never spawned (session.go:112). -/
theorem ticker_absent_of_persistent {s : SysState} (h : Reachable true s) :
    s.tickerPC = .absent := by
  induction h with
  | refl => simp [initState]
  | tail hab hbc ih =>
    obtain ⟨l, hstep⟩ := hbc
    cases hstep <;> simp_all

/-- INVARIANT: a non-persistent session always has its ticker task (in the
loop or exited). -/
theorem ticker_present_of_nonpersistent {s : SysState} (h : Reachable false s) :
    s.tickerPC ≠ .absent := by
  induction h with
  | refl => simp [initState]
  | tail hab hbc ih =>
    obtain ⟨l, hstep⟩ := hbc
    cases hstep <;> simp_all

/-- INVARIANT: the connection map never holds duplicate keys. -/
theorem conns_nodup {p : Bool} {s : SysState} (h : Reachable p s) :
    s.conns.Nodup := by
  induction h with
  | refl => simp [initState]
  | tail hab hbc ih =>
    obtain ⟨l, hstep⟩ := hbc
    cases hstep
    case connRemove s i ec cid hg => exact ih.erase cid
    case connectStartOk s cid hl hc hm => exact List.nodup_cons.mpr ⟨hm, ih⟩
    all_goals simpa using ih

/-- A watcher that has not yet deleted its connection from the map. -/
def watcherPre (pc : WatcherPC) : Prop :=
  pc = .awaitingExit ∨ ∃ ec, pc = .removing ec

/-- INVARIANT: every key in the connection map has a watcher task that has not
yet executed its `Delete` (session.go:189). -/
theorem conns_watched {p : Bool} {s : SysState} (h : Reachable p s) :
    ∀ id ∈ s.conns,
      ∃ i w, s.watchers.get? i = some w ∧ w.cid = id ∧ watcherPre w.pc := by
  induction h with
  | refl => simp [initState]
  | tail hab hbc ih =>
    obtain ⟨l, hstep⟩ := hbc
    have hnd := conns_nodup hab
    cases hstep
    case connectStartOk s cid hl hc hm =>
      intro id hid
      rcases List.mem_cons.mp hid with rfl | hid2
      · exact ⟨s.watchers.length, ⟨id, .awaitingExit⟩,
          List.get?_concat_length _ _, rfl, Or.inl rfl⟩
      · obtain ⟨i, w, hg, hcid, hpre⟩ := ih id hid2
        have hlt := (List.get?_eq_some.mp hg).1
        exact ⟨i, w, by rw [List.get?_append hlt]; exact hg, hcid, hpre⟩
    case connExit s i ec cid hg =>
      intro id hid
      obtain ⟨j, w, hgj, hcid, hpre⟩ := ih id hid
      by_cases hij : j = i
      · subst hij
        rw [hg] at hgj
        have hw := Option.some.inj hgj
        subst hw
        refine ⟨j, ⟨cid, .removing ec⟩, ?_, hcid, Or.inr ⟨ec, rfl⟩⟩
        exact List.get?_set_eq_of_lt _ (List.get?_eq_some.mp hg).1
      · exact ⟨j, w,
          by rw [List.get?_set_ne _ _ (fun hh => hij hh.symm)]; exact hgj,
          hcid, hpre⟩
    case connRemove s i ec cid hg =>
      intro id hid
      obtain ⟨hne, hid2⟩ := hnd.mem_erase_iff.mp hid
      obtain ⟨j, w, hgj, hcid, hpre⟩ := ih id hid2
      by_cases hij : j = i
      · subst hij
        rw [hg] at hgj
        have hw := Option.some.inj hgj
        subst hw
        exact absurd hcid hne.symm
      · exact ⟨j, w,
          by rw [List.get?_set_ne _ _ (fun hh => hij hh.symm)]; exact hgj,
          hcid, hpre⟩
    case connSignal s i ec cid hg ht hch =>
      intro id hid
      obtain ⟨j, w, hgj, hcid, hpre⟩ := ih id hid
      by_cases hij : j = i
      · subst hij
        rw [hg] at hgj
        have hw := Option.some.inj hgj
        subst hw
        simp [watcherPre] at hpre
      · exact ⟨j, w,
          by rw [List.get?_set_ne _ _ (fun hh => hij hh.symm)]; exact hgj,
          hcid, hpre⟩
    case emitConnClosed s i ec cid hg =>
      intro id hid
      obtain ⟨j, w, hgj, hcid, hpre⟩ := ih id hid
      by_cases hij : j = i
      · subst hij
        rw [hg] at hgj
        have hw := Option.some.inj hgj
        subst hw
        simp [watcherPre] at hpre
      · exact ⟨j, w,
          by rw [List.get?_set_ne _ _ (fun hh => hij hh.symm)]; exact hgj,
          hcid, hpre⟩
    all_goals (intro id hid; exact ih id hid)

/-- INVARIANT: no task ever panics from a send on a closed channel — the
channels are closed (lines 102-103) only after `Wait` has joined every watcher
and only while no `Connect` critical section is in flight. -/
theorem no_panic {p : Bool} {s : SysState} (h : Reachable p s) :
    s.panicked = false := by
  induction h with
  | refl => simp [initState]
  | tail hab hbc ih =>
    obtain ⟨l, hstep⟩ := hbc
    cases hstep
    case connSignalOnClosed s i ec cid hg hch =>
      have hc := chansClosed_eq_phase hab
      rw [hch] at hc
      have h4 : 4 ≤ closePhase s.closePC := of_decide_eq_true hc.symm
      have h3 : 3 ≤ closePhase s.closePC := by omega
      have := watchers_joined hab h3 _ (List.get?_mem hg)
      simp at this
    case connectSignalOnClosed s j cid hg hch =>
      have hc := chansClosed_eq_phase hab
      rw [hch] at hc
      have h4 : 4 ≤ closePhase s.closePC := of_decide_eq_true hc.symm
      have h2 : 2 ≤ closePhase s.closePC := by omega
      have hcount := lock_count hab
      rw [lock_free_late hab h2] at hcount
      simp [List.countP_eq_zero] at hcount
      have := hcount _ (List.get?_mem hg)
      simp [connectBusy] at this
    all_goals simpa using ih

/-- Whether the ticker's timer is currently counting down. -/
def TimerState.isArmed : TimerState → Bool
  | .armed _ => true
  | .stopped => false

/-- No send on `connectionsChanged` is currently in flight. -/
def noPendingSignal (s : SysState) : Prop :=
  (∀ w ∈ s.watchers, ∀ ec, w.pc ≠ .signaling ec) ∧
  (∀ t ∈ s.connects, t.pc ≠ .signaling)

/-- INVARIANT: while the ticker is in its loop and no `connectionsChanged`
handoff is pending, the timer is armed exactly when the connection map is
empty (the ticker re-arms on empty and stops on non-empty,
session.go:126-131). -/
theorem armed_iff_empty {p : Bool} {s : SysState} (h : Reachable p s) :
    s.tickerPC = .looping → noPendingSignal s →
      (s.timer.isArmed = true ↔ s.conns = []) := by
  induction h with
  | refl => intro _ _; simp [initState, TimerState.isArmed]
  | tail hab hbc ih =>
    obtain ⟨l, hstep⟩ := hbc
    cases hstep
    case connRemove s i ec cid hg =>
      intro ht hnp
      exact absurd rfl (hnp.1 _ (mem_set_self _ hg) ec)
    case connectStartOk s cid hl hc hm =>
      intro ht hnp
      exact absurd rfl (hnp.2 ⟨cid, .signaling⟩ (by simp))
    case connSignal s i ec cid hg ht2 hch =>
      intro ht hnp
      by_cases hcc : s.conns = [] <;> simp [hcc, TimerState.isArmed]
    case connectSignal s j cid hg ht2 hch =>
      intro ht hnp
      by_cases hcc : s.conns = [] <;> simp [hcc, TimerState.isArmed]
    case tickerRecvClosed s ht2 hch =>
      intro ht hnp
      by_cases hcc : s.conns = [] <;> simp [hcc, TimerState.isArmed]
    case tickerExit s ht2 hch =>
      intro ht hnp
      simp at ht
    case connExit s i ec cid hg =>
      intro ht hnp
      apply ih ht
      constructor
      · intro w hw ec2
        rcases mem_set_rev hg w hw with rfl | hw2
        · simp
        · exact hnp.1 w hw2 ec2
      · exact hnp.2
    case emitConnClosed s i ec cid hg =>
      intro ht hnp
      apply ih ht
      constructor
      · intro w hw ec2
        rcases mem_set_rev hg w hw with rfl | hw2
        · simp
        · exact hnp.1 w hw2 ec2
      · exact hnp.2
    case connectFinish s j cid hg =>
      intro ht hnp
      apply ih ht
      constructor
      · exact hnp.1
      · intro t htm
        rcases mem_set_rev hg t htm with rfl | ht2
        · simp
        · exact hnp.2 t ht2
    all_goals (intro ht hnp; exact ih ht hnp)

/-- INVARIANT: in a persistent session no connection watcher ever passes its
send on `connectionsChanged` (there is no receiver), so no watcher reaches the
`ConnectionClosed` emission or returns, and no `ConnectionClosed` event is
ever emitted. -/
theorem persistent_watchers_blocked {s : SysState} (h : Reachable true s) :
    (∀ w ∈ s.watchers, w.pc ≠ .returned ∧ ∀ ec, w.pc ≠ .emittingClosed ec) ∧
    (∀ cid ec, TraceEvent.connectionClosed cid ec ∉ s.events) := by
  induction h with
  | refl => simp [initState]
  | tail hab hbc ih =>
    obtain ⟨l, hstep⟩ := hbc
    have habs := ticker_absent_of_persistent hab
    cases hstep
    case connSignal s i ec cid hg ht hch => rw [habs] at ht; cases ht
    case emitConnClosed s i ec cid hg =>
      exact absurd rfl ((ih.1 _ (List.get?_mem hg)).2 ec)
    case connExit s i ec cid hg =>
      refine ⟨?_, ih.2⟩
      intro w hw
      rcases List.mem_or_eq_of_mem_set hw with hw2 | rfl
      · exact ih.1 w hw2
      · simp
    case connRemove s i ec cid hg =>
      refine ⟨?_, ih.2⟩
      intro w hw
      rcases List.mem_or_eq_of_mem_set hw with hw2 | rfl
      · exact ih.1 w hw2
      · simp
    case connectStartOk s cid hl hc hm =>
      refine ⟨?_, ih.2⟩
      intro w hw
      rcases List.mem_append.mp hw with hw2 | hw2
      · exact ih.1 w hw2
      · simp at hw2; subst hw2; simp
    case emitSessionClosed s hpc =>
      refine ⟨ih.1, ?_⟩
      intro cid ec hmem
      rcases List.mem_append.mp hmem with hm2 | hm2
      · exact ih.2 cid ec hm2
      · simp at hm2
    case connectFinish s j cid hg =>
      refine ⟨ih.1, ?_⟩
      intro cid2 ec hmem
      rcases List.mem_append.mp hmem with hm2 | hm2
      · exact ih.2 cid2 ec hm2
      · simp at hm2
    all_goals exact ih

/-- Abbreviation for building a watcher task. -/
def watcherTask (cid : String) (pc : WatcherPC) : WatcherTask := { cid := cid, pc := pc }

/-- Abbreviation for building a connect task. -/
def connectTask (cid : String) (pc : ConnectPC) : ConnectTask := { cid := cid, pc := pc }

/-- One step never advances a `Connect` task blocked at the line-198 send in a
persistent session: the only receiver (the ticker) was never spawned, and the
channel cannot be closed while the critical section holds the mutex. -/
theorem connect_signal_stalls_step {s s' : SysState} {l : Label} {j : Nat}
    {t : ConnectTask} (hreach : Reachable true s) (hstep : Step s l s')
    (hg : s.connects.get? j = some t) (hsig : t.pc = .signaling) :
    s'.connects.get? j = some t := by
  cases hstep
  case connectSignal j2 cid hg2 ht hch =>
    rw [ticker_absent_of_persistent hreach] at ht
    cases ht
  case connectStartOk cid hl hc hm =>
    have hlt := (List.get?_eq_some.mp hg).1
    show (s.connects ++ [connectTask cid ConnectPC.signaling]).get? j = some t
    rw [List.get?_append hlt]
    exact hg
  case connectFinish j2 cid hg2 =>
    by_cases hj : j2 = j
    · subst hj
      rw [hg] at hg2
      have h2 := Option.some.inj hg2
      subst h2
      simp at hsig
    · show (s.connects.set j2 (connectTask cid ConnectPC.returned)).get? j = some t
      rw [List.get?_set_ne _ _ hj]
      exact hg
  all_goals exact hg

/-- One step never advances a connection watcher blocked at the line-190 send
in a persistent session. -/
theorem watcher_signal_stalls_step {s s' : SysState} {l : Label} {i : Nat}
    {w : WatcherTask} {ec : Int} (hreach : Reachable true s)
    (hstep : Step s l s') (hg : s.watchers.get? i = some w)
    (hsig : w.pc = .signaling ec) : s'.watchers.get? i = some w := by
  cases hstep
  case connSignal i2 ec2 cid hg2 ht hch =>
    rw [ticker_absent_of_persistent hreach] at ht
    cases ht
  case connExit i2 ec2 cid hg2 =>
    by_cases hi : i2 = i
    · subst hi
      rw [hg] at hg2
      have h2 := Option.some.inj hg2
      subst h2
      simp at hsig
    · show (s.watchers.set i2 (watcherTask cid (WatcherPC.removing ec2))).get? i = some w
      rw [List.get?_set_ne _ _ hi]
      exact hg
  case connRemove i2 ec2 cid hg2 =>
    by_cases hi : i2 = i
    · subst hi
      rw [hg] at hg2
      have h2 := Option.some.inj hg2
      subst h2
      simp at hsig
    · show (s.watchers.set i2 (watcherTask cid (WatcherPC.signaling ec2))).get? i = some w
      rw [List.get?_set_ne _ _ hi]
      exact hg
  case emitConnClosed i2 ec2 cid hg2 =>
    by_cases hi : i2 = i
    · subst hi
      rw [hg] at hg2
      have h2 := Option.some.inj hg2
      subst h2
      simp at hsig
    · show (s.watchers.set i2 (watcherTask cid WatcherPC.returned)).get? i = some w
      rw [List.get?_set_ne _ _ hi]
      exact hg
  case connectStartOk cid hl hc hm =>
    have hlt := (List.get?_eq_some.mp hg).1
    show (s.watchers ++ [watcherTask cid WatcherPC.awaitingExit]).get? i = some w
    rw [List.get?_append hlt]
    exact hg
  all_goals exact hg

/-- In any persistent-session run, a `Connect` blocked at the
`connectionsChanged` send stays blocked there in every later state. -/
theorem connect_signal_stalls {s : SysState} (hreach : Reachable true s)
    {j : Nat} {t : ConnectTask} (hg : s.connects.get? j = some t)
    (hsig : t.pc = .signaling) :
    ∀ s', Steps s s' → s'.connects.get? j = some t := by
  intro s' hss
  induction hss with
  | refl => exact hg
  | tail hab hbc ih =>
    obtain ⟨l, hstep⟩ := hbc
    exact connect_signal_stalls_step (Relation.ReflTransGen.trans hreach hab)
      hstep ih hsig

/-- In any persistent-session run, a connection watcher blocked at the
`connectionsChanged` send stays blocked there in every later state. -/
theorem watcher_signal_stalls {s : SysState} (hreach : Reachable true s)
    {i : Nat} {w : WatcherTask} {ec : Int} (hg : s.watchers.get? i = some w)
    (hsig : w.pc = .signaling ec) :
    ∀ s', Steps s s' → s'.watchers.get? i = some w := by
  intro s' hss
  induction hss with
  | refl => exact hg
  | tail hab hbc ih =>
    obtain ⟨l, hstep⟩ := hbc
    exact watcher_signal_stalls_step (Relation.ReflTransGen.trans hreach hab)
      hstep ih hsig

/-- State of a non-persistent session right after a `Connect` created
connection `"c"`: the connection is in the map (line 197) and the caller is
blocked at the line-198 send, while the ticker's 30-second timer is still
armed and counting. -/
def idleRaceState : SysState where
  persistent := false
  closed := false
  lockHeld := true
  tmCancelled := false
  parentCancelled := false
  conns := ["c"]
  timer := .armed 30
  tickerPC := .looping
  closePC := .selecting
  chansClosed := false
  released := 0
  events := []
  connects := [⟨"c", .signaling⟩]
  watchers := [⟨"c", .awaitingExit⟩]
  panicked := false

/-- The race state is one `Connect` step away from the initial state. -/
theorem idleRaceState_reachable : Reachable false idleRaceState :=
  Relation.ReflTransGen.single
    ⟨Label.connectStartOk "c",
      Step.connectStartOk (initState false) "c" rfl rfl (by simp [initState])⟩

/-- State of a persistent session in which connection `"c"` was created, its
process exited with status 0, and its watcher already deleted it from the map
(line 189) and is now blocked forever at the line-190 send. -/
def persistentStuckState : SysState where
  persistent := true
  closed := false
  lockHeld := true
  tmCancelled := false
  parentCancelled := false
  conns := []
  timer := .armed 30
  tickerPC := .absent
  closePC := .selecting
  chansClosed := false
  released := 0
  events := []
  connects := [⟨"c", .signaling⟩]
  watchers := [⟨"c", .signaling 0⟩]
  panicked := false

/-- The stuck state is reached by: `Connect` creates `"c"`, the connection
process exits with code 0, the watcher deletes `"c"` from the map. -/
theorem persistentStuckState_reachable : Reachable true persistentStuckState := by
  refine Relation.ReflTransGen.head
    ⟨Label.connectStartOk "c",
      Step.connectStartOk (initState true) "c" rfl rfl (by simp [initState])⟩ ?_
  refine Relation.ReflTransGen.head
    ⟨Label.connExit 0 0, Step.connExit _ 0 0 "c" rfl⟩ ?_
  refine Relation.ReflTransGen.head
    ⟨Label.connRemove 0, Step.connRemove _ 0 0 "c" rfl⟩ ?_
  exact Relation.ReflTransGen.refl

/-- C1: for every session whose closed flag is true, `Session.Connect` returns
the closed-session error `ErrClosed` (session.go:167), creates no new
Connection (no watcher spawned, no signal sent, no event emitted), and leaves
the connection map's contents and size unchanged. -/
theorem sessionConnect_closed_rejects (sessionId : String) (m : ConnectionMap)
    (cd : ConnectionData) (startErr attachErr : Option String) :
    (sessionConnect sessionId true m cd startErr attachErr).result =
        some .errClosed ∧
    (sessionConnect sessionId true m cd startErr attachErr).connections = m ∧
    (sessionConnect sessionId true m cd startErr attachErr).connections.length =
        m.length ∧
    (sessionConnect sessionId true m cd startErr attachErr).watchersSpawned = 0 ∧
    (sessionConnect sessionId true m cd startErr attachErr).signalsSent = 0 ∧
    (sessionConnect sessionId true m cd startErr attachErr).events = [] := by
  simp [sessionConnect]

/-- C2: in every reachable state of a session the GPU reservation has been
released at most once; if it has been released then `taskManager.Wait()` (line
100) has already returned and every connection-owning watcher task has
finished; and a completed teardown has released it exactly once — exactly-once
release after the join, across any interleaving of cancellation triggers
(parent cancellation, ticker timeout, explicit `Cancel`). -/
theorem gpu_release_exactly_once {p : Bool} {s : SysState} (h : Reachable p s) :
    s.released ≤ 1 ∧
    (1 ≤ s.released →
      3 ≤ closePhase s.closePC ∧ ∀ w ∈ s.watchers, w.pc = .returned) ∧
    (s.closePC = .finished → s.released = 1) := by
  have hr := released_eq_phase h
  refine ⟨?_, ?_, ?_⟩
  · rw [hr]; split <;> omega
  · intro h1
    have h5 : 5 ≤ closePhase s.closePC := by
      by_contra hlt
      rw [hr] at h1
      simp [hlt] at h1
    exact ⟨by omega, watchers_joined h (by omega)⟩
  · intro hf
    rw [hr, hf]
    decide

/-- Witness for C2: the invariant instantiated at the initial state of a
non-persistent session. -/
theorem gpu_release_exactly_once_witness : (initState false).released ≤ 1 :=
  (gpu_release_exactly_once Relation.ReflTransGen.refl).1

/-- C3: the closing watcher's teardown is strictly ordered — the `SessionClosed`
event (line 107) implies the GPU release (line 105) already happened, which
implies `Wait` (line 100) already returned, which implies the closed flag
(line 98) is already true; release and the event each happen at most once. -/
theorem teardown_strict_order {p : Bool} {s : SysState} (h : Reachable p s) :
    (TraceEvent.sessionClosed ∈ s.events → s.released = 1) ∧
    (1 ≤ s.released → 3 ≤ closePhase s.closePC) ∧
    (3 ≤ closePhase s.closePC → s.closed = true) ∧
    s.events.count TraceEvent.sessionClosed ≤ 1 ∧
    s.released ≤ 1 := by
  have hr := released_eq_phase h
  have hcnt := sessionClosed_count_eq h
  refine ⟨?_, ?_, ?_, ?_, ?_⟩
  · intro hmem
    have hpos : 0 < s.events.count TraceEvent.sessionClosed :=
      List.count_pos_iff.mpr hmem
    rw [hcnt] at hpos
    by_cases hf : s.closePC = .finished
    · rw [hr, hf]; decide
    · simp [hf] at hpos
  · intro h1
    by_contra hlt
    have : s.released = 0 := by
      rw [hr]
      have h5 : ¬ (5 ≤ closePhase s.closePC) := by omega
      simp [h5]
    omega
  · intro h3
    exact closed_of_waiting h (by omega)
  · rw [hcnt]; split <;> omega
  · rw [hr]; split <;> omega

/-- Witness for C3: the ordering chain instantiated at the initial state. -/
theorem teardown_strict_order_witness :
    (initState true).events.count TraceEvent.sessionClosed ≤ 1 :=
  (teardown_strict_order Relation.ReflTransGen.refl).2.2.2.1

/-- C4: the connections-changed signal is an unbuffered-channel rendezvous
(`make(chan struct{})`, session.go:51) and only non-persistent sessions spawn
the receiving ticker task (session.go:112) — in every reachable state of a
persistent session the ticker is absent, so every `Connect` that created a new
connection and every connection watcher handling a completion stays blocked at
its `connectionsChanged` send in every later state, never panicking. -/
theorem persistent_connectionsChanged_stalls {s : SysState}
    (h : Reachable true s) :
    s.tickerPC = .absent ∧
    (∀ j t, s.connects.get? j = some t → t.pc = .signaling →
      ∀ s', Steps s s' → s'.connects.get? j = some t ∧ s'.panicked = false) ∧
    (∀ i w ec, s.watchers.get? i = some w → w.pc = .signaling ec →
      ∀ s', Steps s s' → s'.watchers.get? i = some w ∧ s'.panicked = false) := by
  refine ⟨ticker_absent_of_persistent h, ?_, ?_⟩
  · intro j t hg hsig s' hss
    exact ⟨connect_signal_stalls h hg hsig s' hss,
      no_panic (Relation.ReflTransGen.trans h hss)⟩
  · intro i w ec hg hsig s' hss
    exact ⟨watcher_signal_stalls h hg hsig s' hss,
      no_panic (Relation.ReflTransGen.trans h hss)⟩

/-- Witness for C4: instantiated at the concrete reachable stuck state of a
persistent session. -/
theorem persistent_connectionsChanged_stalls_witness :
    persistentStuckState.tickerPC = TickerPC.absent :=
  (persistent_connectionsChanged_stalls persistentStuckState_reachable).1

/-- C5: the closed flag is monotone — no step ever resets it to false once
true, the flag changes only through the closing watcher's `Set(true)` step
(line 98) and only from false to true, and an explicit `Cancel`
(session.go:142-148) never writes the flag. -/
theorem closed_flag_monotone :
    (∀ s s' : SysState, ∀ l : Label, Step s l s' →
      s.closed = true → s'.closed = true) ∧
    (∀ s s' : SysState, ∀ l : Label, Step s l s' → s'.closed ≠ s.closed →
      l = .setClosedFlag ∧ s.closed = false ∧ s'.closed = true) ∧
    (∀ s s' : SysState, Step s .explicitCancel s' → s'.closed = s.closed) := by
  refine ⟨?_, ?_, ?_⟩
  · intro s s' l hstep hc
    cases hstep <;> simp_all
  · intro s s' l hstep hne
    cases hstep
    case setClosedFlag hpc hl =>
      cases hcl : s.closed
      · exact ⟨rfl, rfl, rfl⟩
      · rw [hcl] at hne
        exact absurd rfl hne
    all_goals exact absurd rfl hne
  · intro s s' hstep
    cases hstep
    rfl

/-- Witness for C5: an explicit `Cancel` step from the initial state leaves
the flag unchanged. -/
theorem closed_flag_monotone_witness :
    ({ initState true with tmCancelled := true } : SysState).closed =
      (initState true).closed :=
  closed_flag_monotone.2.2 _ _ (Step.explicitCancel (initState true) rfl)

/-- C6 counterexample: a reachable state of a non-persistent session where the
connection map is non-empty (connection `"c"` was just registered at line 197,
its `Connect` is blocked at the line-198 send) while the idle timer is still
armed and counting toward auto-cancel — so "the idle timer is counting exactly
when the session is non-persistent and the map is empty" is false as stated. -/
theorem idle_armed_iff_empty_counterexample :
    Reachable false idleRaceState ∧
    idleRaceState.persistent = false ∧
    idleRaceState.conns = ["c"] ∧
    idleRaceState.timer.isArmed = true :=
  ⟨idleRaceState_reachable, rfl, rfl, rfl⟩

/-- C6 amended: until the closing signal fires, the non-persistent session's
ticker reacts exactly as coded — a 30-second expiry runs the session's
`Cancel` on the task manager and leaves the periodic timer armed (lines
123-124); a connections-changed handoff re-arms the timer to a fresh
30-second period when the map is empty and stops it when non-empty (lines
126-131); consequently, in every reachable state whose handoffs have all been
consumed, the timer is armed exactly when the session is non-persistent and
the map is empty. -/
theorem idle_ticker_behavior :
    (∀ s s' : SysState, Step s .tickFire s' →
      s'.timer = s.timer ∧ s'.tmCancelled = (s.tmCancelled || !s.closed)) ∧
    (∀ s s' : SysState, ∀ i, Step s (.connSignal i) s' →
      s'.timer = if s.conns = [] then .armed 30 else .stopped) ∧
    (∀ s s' : SysState, ∀ j, Step s (.connectSignal j) s' →
      s'.timer = if s.conns = [] then .armed 30 else .stopped) ∧
    (∀ p : Bool, ∀ s : SysState, Reachable p s → p = false →
      s.tickerPC = .looping → noPendingSignal s →
      (s.timer.isArmed = true ↔ s.conns = [])) := by
  refine ⟨?_, ?_, ?_, ?_⟩
  · intro s s' h
    cases h
    exact ⟨rfl, rfl⟩
  · intro s s' i h
    cases h
    rfl
  · intro s s' j h
    cases h
    rfl
  · intro p s h hp ht hnp
    exact armed_iff_empty h ht hnp

/-- Witness for C6 amended: the equivalence instantiated at the initial state
of a non-persistent session (armed timer, empty map, no pending handoff). -/
theorem idle_ticker_behavior_witness :
    (initState false).timer.isArmed = true ↔ (initState false).conns = [] :=
  idle_ticker_behavior.2.2.2 false (initState false) Relation.ReflTransGen.refl
    rfl rfl ⟨by simp [initState], by simp [initState]⟩

/-- C7 counterexample: in a persistent session, connection `"c"` was added by
`addConnection` (its watcher exists), the connection exited with status 0 and
the watcher already removed it from the map, yet in every state reachable from
there the watcher is still blocked at the line-190 send and no
`ConnectionClosed` event for `"c"` is ever emitted — the claimed guarantee of
eventual emission even under teardown is false. -/
theorem connection_watcher_guarantee_counterexample :
    Reachable true persistentStuckState ∧
    persistentStuckState.watchers.get? 0 = some ⟨"c", .signaling 0⟩ ∧
    persistentStuckState.conns = [] ∧
    (∀ s', Steps persistentStuckState s' →
      s'.watchers.get? 0 = some ⟨"c", WatcherPC.signaling 0⟩ ∧
      TraceEvent.connectionClosed "c" 0 ∉ s'.events) := by
  refine ⟨persistentStuckState_reachable, rfl, rfl, ?_⟩
  intro s' hss
  refine ⟨watcher_signal_stalls persistentStuckState_reachable
    (show persistentStuckState.watchers.get? 0 =
      some ⟨"c", WatcherPC.signaling 0⟩ from rfl) rfl s' hss, ?_⟩
  exact (persistent_watchers_blocked
    (Relation.ReflTransGen.trans persistentStuckState_reachable hss)).2 "c" 0

/-- C7 amended: every successful `addConnection` spawns exactly one watcher
task for the new connection; a watcher reaches its `connectionsChanged` send
only by first deleting its connection from the map (line 189), and emits
`ConnectionClosed` with the connection's exit status only from the program
point after that send (line 192); in a persistent session the send never
completes, so no `ConnectionClosed` event is ever emitted. -/
theorem connection_watcher_lifecycle :
    (∀ s s' : SysState, ∀ cid, Step s (.connectStartOk cid) s' →
      s'.watchers = s.watchers ++ [⟨cid, .awaitingExit⟩]) ∧
    (∀ s s' : SysState, ∀ i, Step s (.connRemove i) s' →
      ∃ cid ec, s.watchers.get? i = some ⟨cid, .removing ec⟩ ∧
        s'.conns = s.conns.erase cid ∧
        s'.watchers.get? i = some ⟨cid, .signaling ec⟩) ∧
    (∀ s s' : SysState, ∀ i, Step s (.emitConnClosed i) s' →
      ∃ cid ec, s.watchers.get? i = some ⟨cid, .emittingClosed ec⟩ ∧
        s'.events = s.events ++ [.connectionClosed cid ec]) ∧
    (∀ s : SysState, Reachable true s →
      ∀ cid ec, TraceEvent.connectionClosed cid ec ∉ s.events) := by
  refine ⟨?_, ?_, ?_, ?_⟩
  · intro s s' cid h
    cases h
    rfl
  · intro s s' i h
    cases h
    case connRemove ec cid hg =>
      exact ⟨cid, ec, hg, rfl,
        List.get?_set_eq_of_lt _ (List.get?_eq_some.mp hg).1⟩
  · intro s s' i h
    cases h
    case emitConnClosed ec cid hg => exact ⟨cid, ec, hg, rfl⟩
  · intro s h cid ec
    exact (persistent_watchers_blocked h).2 cid ec

/-- Witness for C7 amended: no `ConnectionClosed` event in the concrete stuck
state of the persistent session. -/
theorem connection_watcher_lifecycle_witness :
    TraceEvent.connectionClosed "c" 0 ∉ persistentStuckState.events :=
  connection_watcher_lifecycle.2.2.2 persistentStuckState
    persistentStuckState_reachable "c" 0

/-- C8: when `Connect` runs on an open session, no connection with the given
id exists, and the Connection's `Start` fails, the wrapped error is returned
immediately to the caller (session.go:159-160) and nothing is registered: the
map is unchanged, no watcher is spawned, no connections-changed signal is
sent, and no `ConnectionCreated` event is emitted. -/
theorem connect_start_failure_clean (sessionId : String) (m : ConnectionMap)
    (cd : ConnectionData) (e : String) (attachErr : Option String)
    (hlook : m.lookup cd.id = none) :
    (sessionConnect sessionId false m cd (some e) attachErr).result =
        some (.startFailed e) ∧
    (sessionConnect sessionId false m cd (some e) attachErr).connections = m ∧
    (sessionConnect sessionId false m cd (some e) attachErr).watchersSpawned = 0 ∧
    (sessionConnect sessionId false m cd (some e) attachErr).signalsSent = 0 ∧
    (sessionConnect sessionId false m cd (some e) attachErr).events = [] := by
  simp [sessionConnect, hlook, addConnection]

/-- Witness for C8: a concrete failing `Start` on an empty session. -/
theorem connect_start_failure_clean_witness :
    ([] : ConnectionMap).lookup "c" = none ∧
    (sessionConnect "s" false [] ⟨"c", "1", "p"⟩ (some "boom") none).result =
      some (.startFailed "boom") :=
  ⟨rfl, (connect_start_failure_clean "s" [] ⟨"c", "1", "p"⟩ "boom" none rfl).1⟩

/-- C9: the request-session endpoint rejects whenever the current session
count plus one is at least `maxSessions` (endpoints.go:66), so an admitted
request always satisfies `count + 1 < maxSessions`: the agent admits at most
`maxSessions - 1` concurrent sessions and never reaches `maxSessions`. -/
theorem max_sessions_off_by_one (sessionsLen maxSessions : Int) :
    (sessionsLen + 1 ≥ maxSessions →
      requestSessionAdmits sessionsLen maxSessions = false) ∧
    (requestSessionAdmits sessionsLen maxSessions = true →
      sessionsLen + 1 < maxSessions ∧
      sessionsLen + 1 ≤ maxSessions - 1 ∧
      sessionsLen + 1 ≠ maxSessions) := by
  constructor
  · intro hge
    simp [requestSessionAdmits, hge]
  · intro hadm
    simp only [requestSessionAdmits] at hadm
    split at hadm
    · cases hadm
    · next hlt => exact ⟨by omega, by omega, by omega⟩

/-- Witness for C9: with `maxSessions = 2`, one existing session is rejected
and zero existing sessions are admitted (ending at one, not two). -/
theorem max_sessions_off_by_one_witness :
    requestSessionAdmits 1 2 = false ∧
    ((0:Int) + 1 < 2 ∧ (0:Int) + 1 ≤ 2 - 1 ∧ (0:Int) + 1 ≠ 2) :=
  ⟨(max_sessions_off_by_one 1 2).1 (by decide),
    (max_sessions_off_by_one 0 2).2 (by decide)⟩

/-- C10: when the session lookup yields a nil session with a nil error, the
connect-session handler responds 400 Bad Request but does not return: it
proceeds to hijack the HTTP connection and then invokes `Connect` on the nil
session pointer, dereferencing nil (endpoints.go:156-187). -/
theorem connectSessionEp_nil_deref (connectErr : Option String) :
    connectSessionEp (.ok none) none connectErr =
      [.respondEmpty 400, .hijackConn, .nilPointerPanic] := rfl
